import Mathlib

/-!
# Verification of the front-matter annotator

Shallow embedding of `src/scripts/lib/api/addFrontMatter.ts`: a dispatcher
that inspects a converted documentation page's metadata and prepends the
matching front-matter header block to its body.

JavaScript semantics captured here:
* optional string fields are `Option String`; a truthiness test
  (`if (result.meta.x)`) is true exactly when the field is present and
  non-empty (`truthyStr`);
* template-literal interpolation of a possibly-absent string renders an
  absent value as the string `"undefined"` (`interpolate`);
* the in-place mutation of each element of the input array is modelled by
  returning the list of updated records.
-/

/-- Modelled from the spec: the package descriptor (`Pkg` in the source,
whose definition file is not included under `src/`). The spec lists the
fields read by the annotator: `title`, `versionWithoutPatch`, and
`hasSeparateReleaseNotes`. -/
structure Pkg where
  title : String
  versionWithoutPatch : String
  hasSeparateReleaseNotes : Bool
deriving Repr, DecidableEq

/-- Modelled from the spec: the metadata envelope carried by a converted
page (part of `HtmlToMdResult`, whose definition file is not included under
`src/`). The annotator reads `hardcodedFrontmatter`, `apiName` and
`apiType`, each an optional string. -/
structure Metadata where
  hardcodedFrontmatter : Option String
  apiName : Option String
  apiType : Option String
deriving Repr, DecidableEq

/-- Modelled from the spec: a page-conversion result (`HtmlToMdResult`,
whose definition file is not included under `src/`). The annotator reads
and rewrites `markdown`, and reads `meta` and `isReleaseNotes`. -/
structure HtmlToMdResult where
  markdown : String
  meta : Metadata
  isReleaseNotes : Bool
deriving Repr, DecidableEq

/-- JavaScript truthiness of an optional string: `undefined` and `""` are
falsy, every other string is truthy. -/
def truthyStr : Option String → Bool
  | none => false
  | some s => decide (s ≠ "")

/-- JavaScript template-literal interpolation of an optional string:
an absent value renders as the string `"undefined"`. -/
def interpolate : Option String → String
  | none => "undefined"
  | some s => s

/-- Modelled from the spec: `getLastPartFromFullIdentifier` is imported
from `lib/stringUtils`, which is not included under `src/`. Per the spec,
the rendered title is the last dot-delimited segment of the fully
qualified symbol name (e.g. `a.b.C` gives `C`). -/
def getLastPartFromFullIdentifier (fullIdentifier : String) : String :=
  String.mk ((fullIdentifier.data.reverse.takeWhile (fun c => c ≠ '.')).reverse)

/-- The body rewrite performed for one page by the loop body of
`addFrontMatter` (`src/scripts/lib/api/addFrontMatter.ts`, lines 21-57):
first match among the hardcoded case, the API-symbol case and the
release-notes case wins; otherwise the markdown is returned unchanged. -/
def annotateMarkdown (pkg : Pkg) (meta : Metadata) (isReleaseNotes : Bool)
    (markdown : String) : String :=
  if truthyStr meta.hardcodedFrontmatter then
    "---\n" ++ interpolate meta.hardcodedFrontmatter ++ "\n---\n\n" ++ markdown ++ "\n"
  else if truthyStr meta.apiName then
    "---\ntitle: " ++ getLastPartFromFullIdentifier (interpolate meta.apiName) ++
      "\ndescription: API reference for " ++ interpolate meta.apiName ++
      "\nin_page_toc_min_heading_level: 1\npython_api_type: " ++ interpolate meta.apiType ++
      "\npython_api_name: " ++ interpolate meta.apiName ++
      "\n---\n\n" ++ markdown ++ "\n"
  else if isReleaseNotes then
    let versionStr := if pkg.hasSeparateReleaseNotes then " " ++ pkg.versionWithoutPatch else ""
    let descriptionSuffix :=
      if pkg.hasSeparateReleaseNotes then "in " ++ pkg.title ++ versionStr else "to " ++ pkg.title
    "---\ntitle: " ++ pkg.title ++ versionStr ++ " release notes\ndescription: Changes made " ++
      descriptionSuffix ++ "\nin_page_toc_max_heading_level: 2\n---\n\n" ++ markdown ++ "\n"
  else markdown

/-- One iteration of the loop in `addFrontMatter`: the page's `markdown`
field is replaced, its other fields are untouched. -/
def processResult (pkg : Pkg) (result : HtmlToMdResult) : HtmlToMdResult :=
  { result with markdown := annotateMarkdown pkg result.meta result.isReleaseNotes result.markdown }

/-- `addFrontMatter(results, pkg)`: the `for (let result of results)` loop,
processing the pages strictly in order. The TypeScript function mutates the
array elements in place and returns `void`; here it returns the updated
list. -/
def addFrontMatter : List HtmlToMdResult → Pkg → List HtmlToMdResult
  | [], _ => []
  | result :: rest, pkg => processResult pkg result :: addFrontMatter rest pkg

/-- Whether a page matches one of the three annotating cases. -/
def matchesRule (result : HtmlToMdResult) : Bool :=
  truthyStr result.meta.hardcodedFrontmatter || truthyStr result.meta.apiName ||
    result.isReleaseNotes

theorem truthyStr_some_of_ne {s : String} (h : s ≠ "") : truthyStr (some s) = true := by
  simp [truthyStr, h]

theorem addFrontMatter_getElem? (results : List HtmlToMdResult) (pkg : Pkg) (i : Nat) :
    (addFrontMatter results pkg)[i]? = (results[i]?).map (processResult pkg) := by
  induction results generalizing i with
  | nil => simp [addFrontMatter]
  | cons r rest ih =>
    cases i with
    | zero => simp [addFrontMatter]
    | succ j => simpa [addFrontMatter] using ih j

theorem addFrontMatter_length (results : List HtmlToMdResult) (pkg : Pkg) :
    (addFrontMatter results pkg).length = results.length := by
  induction results with
  | nil => rfl
  | cons r rest ih => simpa [addFrontMatter] using ih

/-- Sample concrete inputs used by the witnesses. -/
def samplePkg : Pkg :=
  { title := "Qiskit", versionWithoutPatch := "0.45", hasSeparateReleaseNotes := true }

def hcPage : HtmlToMdResult :=
  { markdown := "# Body"
    meta := { hardcodedFrontmatter := some "title: Hand", apiName := none, apiType := none }
    isReleaseNotes := false }

/-- C1 (amended): a page whose metadata has `hardcodedFrontmatter` set
(truthy), with any values of the other metadata fields, has its body
rewritten by `addFrontMatter` to exactly `"---\n" ++ hardcodedFrontmatter
++ "\n---\n\n" ++ originalBody ++ "\n"`; no other field changes. The
amendment over the original claim is the final `"\n"`: the source's
template literal appends one newline after the original body. -/
theorem addFrontMatter_hardcoded_exact (pkg : Pkg) (results : List HtmlToMdResult)
    (i : Nat) (page : HtmlToMdResult) (fm : String)
    (hpage : results[i]? = some page)
    (hfm : page.meta.hardcodedFrontmatter = some fm) (hne : fm ≠ "") :
    (addFrontMatter results pkg)[i]? =
      some { page with markdown := "---\n" ++ fm ++ "\n---\n\n" ++ page.markdown ++ "\n" } := by
  rw [addFrontMatter_getElem?, hpage]
  simp [processResult, annotateMarkdown, hfm, truthyStr_some_of_ne hne, interpolate]

def measurePage : HtmlToMdResult :=
  { markdown := "# Hi"
    meta := { hardcodedFrontmatter := none, apiName := some "qiskit.circuit.Measure",
              apiType := some "class" }
    isReleaseNotes := false }

def rnPage : HtmlToMdResult :=
  { markdown := "# Notes"
    meta := { hardcodedFrontmatter := none, apiName := none, apiType := none }
    isReleaseNotes := true }

def plainPage : HtmlToMdResult :=
  { markdown := "# Plain"
    meta := { hardcodedFrontmatter := none, apiName := none, apiType := none }
    isReleaseNotes := false }

def bothPage : HtmlToMdResult :=
  { markdown := "# Both"
    meta := { hardcodedFrontmatter := some "title: Hand", apiName := some "a.b",
              apiType := some "class" }
    isReleaseNotes := true }

theorem addFrontMatter_hardcoded_exact_witness :
    ([hcPage][0]? = some hcPage) ∧
    (hcPage.meta.hardcodedFrontmatter = some "title: Hand") ∧
    ("title: Hand" ≠ "") ∧
    (addFrontMatter [hcPage] samplePkg)[0]? =
      some { hcPage with
              markdown := "---\n" ++ "title: Hand" ++ "\n---\n\n" ++ hcPage.markdown ++ "\n" } :=
  ⟨rfl, rfl, by decide,
    addFrontMatter_hardcoded_exact samplePkg [hcPage] 0 hcPage "title: Hand" rfl rfl (by decide)⟩

theorem annotateMarkdown_api (pkg : Pkg) (m : Metadata) (rel : Bool) (md nm : String)
    (hh : truthyStr m.hardcodedFrontmatter = false)
    (ha : m.apiName = some nm) (hne : nm ≠ "") :
    annotateMarkdown pkg m rel md =
      "---\ntitle: " ++ getLastPartFromFullIdentifier nm ++
        "\ndescription: API reference for " ++ nm ++
        "\nin_page_toc_min_heading_level: 1\npython_api_type: " ++ interpolate m.apiType ++
        "\npython_api_name: " ++ nm ++ "\n---\n\n" ++ md ++ "\n" := by
  simp [annotateMarkdown, hh, ha, truthyStr_some_of_ne hne, interpolate]

/-- C2: a page with no truthy `hardcodedFrontmatter` but with `apiName` and
`apiType` set gets the five-line API header, in the fixed order
title / description / in_page_toc_min_heading_level / python_api_type /
python_api_name, with title the last dot-delimited segment of `apiName`. -/
theorem addFrontMatter_apiName_header (pkg : Pkg) (results : List HtmlToMdResult)
    (i : Nat) (page : HtmlToMdResult) (nm tp : String)
    (hpage : results[i]? = some page)
    (hh : truthyStr page.meta.hardcodedFrontmatter = false)
    (ha : page.meta.apiName = some nm) (hne : nm ≠ "")
    (ht : page.meta.apiType = some tp) :
    (addFrontMatter results pkg)[i]? =
      some { page with markdown :=
              "---\ntitle: " ++ getLastPartFromFullIdentifier nm ++
                "\ndescription: API reference for " ++ nm ++
                "\nin_page_toc_min_heading_level: 1\npython_api_type: " ++ tp ++
                "\npython_api_name: " ++ nm ++ "\n---\n\n" ++ page.markdown ++ "\n" } := by
  rw [addFrontMatter_getElem?, hpage]
  simp [processResult, annotateMarkdown_api pkg page.meta page.isReleaseNotes page.markdown nm hh ha hne,
    ht, interpolate]

theorem addFrontMatter_apiName_header_witness :
    ([measurePage][0]? = some measurePage) ∧
    (truthyStr measurePage.meta.hardcodedFrontmatter = false) ∧
    (measurePage.meta.apiName = some "qiskit.circuit.Measure") ∧
    ("qiskit.circuit.Measure" ≠ "") ∧
    (measurePage.meta.apiType = some "class") ∧
    (addFrontMatter [measurePage] samplePkg)[0]? =
      some { measurePage with markdown :=
              "---\ntitle: " ++ getLastPartFromFullIdentifier "qiskit.circuit.Measure" ++
                "\ndescription: API reference for " ++ "qiskit.circuit.Measure" ++
                "\nin_page_toc_min_heading_level: 1\npython_api_type: " ++ "class" ++
                "\npython_api_name: " ++ "qiskit.circuit.Measure" ++ "\n---\n\n" ++
                measurePage.markdown ++ "\n" } ∧
    (processResult samplePkg measurePage).markdown =
      "---\ntitle: Measure\ndescription: API reference for qiskit.circuit.Measure\nin_page_toc_min_heading_level: 1\npython_api_type: class\npython_api_name: qiskit.circuit.Measure\n---\n\n# Hi\n" :=
  ⟨rfl, rfl, rfl, by decide, rfl,
    addFrontMatter_apiName_header samplePkg [measurePage] 0 measurePage
      "qiskit.circuit.Measure" "class" rfl rfl rfl (by decide) rfl,
    by rfl⟩

theorem annotateMarkdown_releaseNotes (pkg : Pkg) (m : Metadata) (md : String)
    (hh : truthyStr m.hardcodedFrontmatter = false)
    (ha : truthyStr m.apiName = false) :
    annotateMarkdown pkg m true md =
      if pkg.hasSeparateReleaseNotes then
        "---\ntitle: " ++ pkg.title ++ " " ++ pkg.versionWithoutPatch ++
          " release notes\ndescription: Changes made in " ++ pkg.title ++ " " ++
          pkg.versionWithoutPatch ++ "\nin_page_toc_max_heading_level: 2\n---\n\n" ++ md ++ "\n"
      else
        "---\ntitle: " ++ pkg.title ++
          " release notes\ndescription: Changes made to " ++ pkg.title ++
          "\nin_page_toc_max_heading_level: 2\n---\n\n" ++ md ++ "\n" := by
  cases hs : pkg.hasSeparateReleaseNotes <;>
    simp only [annotateMarkdown, hh, ha, hs, Bool.false_eq_true, if_false, if_true,
      String.append_empty, String.append_assoc] <;> rfl

/-- C3: a release-notes page (no truthy `hardcodedFrontmatter` or `apiName`,
`isReleaseNotes` true) gets title `"<title> <versionWithoutPatch> release
notes"` and description `"Changes made in <title> <versionWithoutPatch>"`
when the package has separate release notes, and title `"<title> release
notes"` with description `"Changes made to <title>"` otherwise; in both
cases the header carries `in_page_toc_max_heading_level: 2`. -/
theorem addFrontMatter_releaseNotes_header (pkg : Pkg) (results : List HtmlToMdResult)
    (i : Nat) (page : HtmlToMdResult)
    (hpage : results[i]? = some page)
    (hh : truthyStr page.meta.hardcodedFrontmatter = false)
    (ha : truthyStr page.meta.apiName = false)
    (hrel : page.isReleaseNotes = true) :
    (addFrontMatter results pkg)[i]? =
      some { page with markdown :=
              if pkg.hasSeparateReleaseNotes then
                "---\ntitle: " ++ pkg.title ++ " " ++ pkg.versionWithoutPatch ++
                  " release notes\ndescription: Changes made in " ++ pkg.title ++ " " ++
                  pkg.versionWithoutPatch ++ "\nin_page_toc_max_heading_level: 2\n---\n\n" ++
                  page.markdown ++ "\n"
              else
                "---\ntitle: " ++ pkg.title ++
                  " release notes\ndescription: Changes made to " ++ pkg.title ++
                  "\nin_page_toc_max_heading_level: 2\n---\n\n" ++ page.markdown ++ "\n" } := by
  rw [addFrontMatter_getElem?, hpage]
  simp only [Option.map, processResult, hrel, annotateMarkdown_releaseNotes pkg page.meta page.markdown hh ha]

theorem addFrontMatter_releaseNotes_header_witness :
    ([rnPage][0]? = some rnPage) ∧
    (truthyStr rnPage.meta.hardcodedFrontmatter = false) ∧
    (truthyStr rnPage.meta.apiName = false) ∧
    (rnPage.isReleaseNotes = true) ∧
    (addFrontMatter [rnPage] samplePkg)[0]? =
      some { rnPage with markdown :=
              if samplePkg.hasSeparateReleaseNotes then
                "---\ntitle: " ++ samplePkg.title ++ " " ++ samplePkg.versionWithoutPatch ++
                  " release notes\ndescription: Changes made in " ++ samplePkg.title ++ " " ++
                  samplePkg.versionWithoutPatch ++ "\nin_page_toc_max_heading_level: 2\n---\n\n" ++
                  rnPage.markdown ++ "\n"
              else
                "---\ntitle: " ++ samplePkg.title ++
                  " release notes\ndescription: Changes made to " ++ samplePkg.title ++
                  "\nin_page_toc_max_heading_level: 2\n---\n\n" ++ rnPage.markdown ++ "\n" } ∧
    (processResult samplePkg rnPage).markdown =
      "---\ntitle: Qiskit 0.45 release notes\ndescription: Changes made in Qiskit 0.45\nin_page_toc_max_heading_level: 2\n---\n\n# Notes\n" :=
  ⟨rfl, rfl, rfl, rfl,
    addFrontMatter_releaseNotes_header samplePkg [rnPage] 0 rnPage rfl rfl rfl rfl,
    by rfl⟩

/-- C4: a page matching none of the three cases (no truthy
`hardcodedFrontmatter`, no truthy `apiName`, `isReleaseNotes` false) passes
through `addFrontMatter` completely unchanged; in particular its body is
byte-for-byte identical. -/
theorem addFrontMatter_passthrough (pkg : Pkg) (results : List HtmlToMdResult)
    (i : Nat) (page : HtmlToMdResult)
    (hpage : results[i]? = some page)
    (hh : truthyStr page.meta.hardcodedFrontmatter = false)
    (ha : truthyStr page.meta.apiName = false)
    (hrel : page.isReleaseNotes = false) :
    (addFrontMatter results pkg)[i]? = some page := by
  obtain ⟨md, m, rel⟩ := page
  rw [addFrontMatter_getElem?, hpage]
  simp_all [processResult, annotateMarkdown]

theorem addFrontMatter_passthrough_witness :
    ([plainPage][0]? = some plainPage) ∧
    (truthyStr plainPage.meta.hardcodedFrontmatter = false) ∧
    (truthyStr plainPage.meta.apiName = false) ∧
    (plainPage.isReleaseNotes = false) ∧
    (addFrontMatter [plainPage] samplePkg)[0]? = some plainPage :=
  ⟨rfl, rfl, rfl, rfl,
    addFrontMatter_passthrough samplePkg [plainPage] 0 plainPage rfl rfl rfl rfl⟩

/-- C5: precedence of the classification cases. A page with a truthy
`hardcodedFrontmatter` and `isReleaseNotes = true` (and an arbitrary
`apiName`) takes the hardcoded path: its new body is the hardcoded header
followed by the original body, never the release-notes header. -/
theorem addFrontMatter_precedence_hardcoded (pkg : Pkg) (results : List HtmlToMdResult)
    (i : Nat) (page : HtmlToMdResult) (fm : String)
    (hpage : results[i]? = some page)
    (hfm : page.meta.hardcodedFrontmatter = some fm) (hne : fm ≠ "")
    (_hrel : page.isReleaseNotes = true) :
    (addFrontMatter results pkg)[i]? =
      some { page with markdown := "---\n" ++ fm ++ "\n---\n\n" ++ page.markdown ++ "\n" } := by
  rw [addFrontMatter_getElem?, hpage]
  simp [processResult, annotateMarkdown, hfm, truthyStr_some_of_ne hne, interpolate]

theorem addFrontMatter_precedence_hardcoded_witness :
    ([bothPage][0]? = some bothPage) ∧
    (bothPage.meta.hardcodedFrontmatter = some "title: Hand") ∧
    ("title: Hand" ≠ "") ∧
    (bothPage.isReleaseNotes = true) ∧
    (addFrontMatter [bothPage] samplePkg)[0]? =
      some { bothPage with
              markdown := "---\n" ++ "title: Hand" ++ "\n---\n\n" ++ bothPage.markdown ++ "\n" } :=
  ⟨rfl, rfl, by decide, rfl,
    addFrontMatter_precedence_hardcoded samplePkg [bothPage] 0 bothPage "title: Hand"
      rfl rfl (by decide) rfl⟩

theorem length_lt_wrap (a md : String) : md.length < ((a ++ md) ++ "\n").length := by
  have h1 : ("\n" : String).length = 1 := rfl
  simp [String.length_append, h1]
  omega

theorem annotateMarkdown_length_gt (pkg : Pkg) (m : Metadata) (rel : Bool) (md : String)
    (h : (truthyStr m.hardcodedFrontmatter || truthyStr m.apiName || rel) = true) :
    md.length < (annotateMarkdown pkg m rel md).length := by
  by_cases h1 : truthyStr m.hardcodedFrontmatter = true
  · simp only [annotateMarkdown, h1, if_true]
    exact length_lt_wrap _ _
  · rw [Bool.not_eq_true] at h1
    by_cases h2 : truthyStr m.apiName = true
    · simp only [annotateMarkdown, h1, h2, Bool.false_eq_true, if_false, if_true]
      exact length_lt_wrap _ _
    · rw [Bool.not_eq_true] at h2
      simp only [h1, h2, Bool.false_or] at h
      simp only [annotateMarkdown, h1, h2, h, Bool.false_eq_true, if_false, if_true]
      exact length_lt_wrap _ _

/-- C6: the annotator is not idempotent. A page matching a classification
rule still matches after the first run (its metadata is untouched), so a
second run of `addFrontMatter` wraps the already-annotated body in a second
complete header block of the same case, and that second body differs from
the first. -/
theorem addFrontMatter_not_idempotent (pkg : Pkg) (results : List HtmlToMdResult)
    (i : Nat) (page : HtmlToMdResult)
    (hpage : results[i]? = some page)
    (hmatch : matchesRule page = true) :
    matchesRule (processResult pkg page) = true ∧
    (addFrontMatter (addFrontMatter results pkg) pkg)[i]? =
      some { page with markdown := (annotateMarkdown pkg page.meta page.isReleaseNotes
              (annotateMarkdown pkg page.meta page.isReleaseNotes page.markdown)) } ∧
    annotateMarkdown pkg page.meta page.isReleaseNotes
        (annotateMarkdown pkg page.meta page.isReleaseNotes page.markdown) ≠
      annotateMarkdown pkg page.meta page.isReleaseNotes page.markdown := by
  refine ⟨hmatch, ?_, ?_⟩
  · rw [addFrontMatter_getElem?, addFrontMatter_getElem?, hpage]
    rfl
  · intro heq
    have hlt := annotateMarkdown_length_gt pkg page.meta page.isReleaseNotes
      (annotateMarkdown pkg page.meta page.isReleaseNotes page.markdown) hmatch
    rw [heq] at hlt
    exact lt_irrefl _ hlt

theorem addFrontMatter_not_idempotent_witness :
    ([hcPage][0]? = some hcPage) ∧
    (matchesRule hcPage = true) ∧
    (matchesRule (processResult samplePkg hcPage) = true ∧
      (addFrontMatter (addFrontMatter [hcPage] samplePkg) samplePkg)[0]? =
        some { hcPage with markdown := (annotateMarkdown samplePkg hcPage.meta
                hcPage.isReleaseNotes (annotateMarkdown samplePkg hcPage.meta
                  hcPage.isReleaseNotes hcPage.markdown)) } ∧
      annotateMarkdown samplePkg hcPage.meta hcPage.isReleaseNotes
          (annotateMarkdown samplePkg hcPage.meta hcPage.isReleaseNotes hcPage.markdown) ≠
        annotateMarkdown samplePkg hcPage.meta hcPage.isReleaseNotes hcPage.markdown) :=
  ⟨rfl, rfl, addFrontMatter_not_idempotent samplePkg [hcPage] 0 hcPage rfl rfl⟩

/-- C7: frame and independence. `addFrontMatter` preserves the length (and
hence order) of the page list; each output page is exactly
`processResult pkg` of the corresponding input page alone (so it depends on
no other page), and only the `markdown` field changes: `meta` and
`isReleaseNotes` are untouched, and the package descriptor is read-only. -/
theorem addFrontMatter_frame (pkg : Pkg) (results : List HtmlToMdResult) :
    (addFrontMatter results pkg).length = results.length ∧
    ∀ (i : Nat) (page : HtmlToMdResult), results[i]? = some page →
      (addFrontMatter results pkg)[i]? = some (processResult pkg page) ∧
      (processResult pkg page).meta = page.meta ∧
      (processResult pkg page).isReleaseNotes = page.isReleaseNotes := by
  refine ⟨addFrontMatter_length results pkg, ?_⟩
  intro i page hpage
  refine ⟨?_, rfl, rfl⟩
  rw [addFrontMatter_getElem?, hpage]
  rfl

theorem addFrontMatter_frame_witness :
    ((addFrontMatter [hcPage, plainPage] samplePkg).length = [hcPage, plainPage].length) ∧
    ([hcPage, plainPage][0]? = some hcPage) ∧
    ((addFrontMatter [hcPage, plainPage] samplePkg)[0]? = some (processResult samplePkg hcPage) ∧
      (processResult samplePkg hcPage).meta = hcPage.meta ∧
      (processResult samplePkg hcPage).isReleaseNotes = hcPage.isReleaseNotes) :=
  ⟨(addFrontMatter_frame samplePkg [hcPage, plainPage]).1, rfl,
    (addFrontMatter_frame samplePkg [hcPage, plainPage]).2 0 hcPage rfl⟩

/-- C8: in each of the three annotating branches the rewritten body has the
shape `header ++ "\n\n" ++ (originalBody ++ "\n")`: the original body is
followed by exactly one appended newline, so annotation is not a pure
prepend of the header to the unchanged body. -/
theorem annotateMarkdown_header_shape (pkg : Pkg) (m : Metadata) (rel : Bool) (md : String)
    (h : (truthyStr m.hardcodedFrontmatter || truthyStr m.apiName || rel) = true) :
    ∃ header : String,
      annotateMarkdown pkg m rel md = header ++ ("\n\n" ++ (md ++ "\n")) := by
  by_cases h1 : truthyStr m.hardcodedFrontmatter = true
  · refine ⟨"---\n" ++ (interpolate m.hardcodedFrontmatter ++ "\n---"), ?_⟩
    simp only [annotateMarkdown, h1, if_true, String.append_assoc]
    rfl
  · rw [Bool.not_eq_true] at h1
    by_cases h2 : truthyStr m.apiName = true
    · refine ⟨"---\ntitle: " ++ (getLastPartFromFullIdentifier (interpolate m.apiName) ++
        ("\ndescription: API reference for " ++ (interpolate m.apiName ++
          ("\nin_page_toc_min_heading_level: 1\npython_api_type: " ++ (interpolate m.apiType ++
            ("\npython_api_name: " ++ (interpolate m.apiName ++ "\n---"))))))), ?_⟩
      simp only [annotateMarkdown, h1, h2, Bool.false_eq_true, if_false, if_true,
        String.append_assoc]
      rfl
    · rw [Bool.not_eq_true] at h2
      simp only [h1, h2, Bool.false_or] at h
      cases hs : pkg.hasSeparateReleaseNotes
      · refine ⟨"---\ntitle: " ++ (pkg.title ++
          (" release notes\ndescription: Changes made " ++ ("to " ++ (pkg.title ++
            "\nin_page_toc_max_heading_level: 2\n---")))), ?_⟩
        simp only [annotateMarkdown, h1, h2, h, hs, Bool.false_eq_true, if_false, if_true,
          String.append_empty, String.append_assoc]
        rfl
      · refine ⟨"---\ntitle: " ++ (pkg.title ++ (" " ++ (pkg.versionWithoutPatch ++
          (" release notes\ndescription: Changes made " ++ ("in " ++ (pkg.title ++ (" " ++
            (pkg.versionWithoutPatch ++ "\nin_page_toc_max_heading_level: 2\n---")))))))), ?_⟩
        simp only [annotateMarkdown, h1, h2, h, hs, Bool.false_eq_true, if_false, if_true,
          String.append_assoc]
        rfl

theorem annotateMarkdown_header_shape_witness :
    ((truthyStr rnPage.meta.hardcodedFrontmatter || truthyStr rnPage.meta.apiName ||
        rnPage.isReleaseNotes) = true) ∧
    (∃ header : String,
      annotateMarkdown samplePkg rnPage.meta rnPage.isReleaseNotes rnPage.markdown =
        header ++ ("\n\n" ++ (rnPage.markdown ++ "\n"))) :=
  ⟨rfl, annotateMarkdown_header_shape samplePkg rnPage.meta rnPage.isReleaseNotes
    rnPage.markdown rfl⟩

def emptyHcMeta : Metadata :=
  { hardcodedFrontmatter := some "", apiName := some "qiskit.circuit.Measure",
    apiType := some "class" }

def emptyApiMeta : Metadata :=
  { hardcodedFrontmatter := none, apiName := some "", apiType := none }

/-- C9: the case tests are truthiness checks, so an empty-string field
behaves exactly like an absent one. A page whose `hardcodedFrontmatter` is
`""` is not handled by the hardcoded case and is annotated exactly as if
the field were absent (falling through to the `apiName` check), and a page
whose `apiName` is `""` is annotated exactly as if `apiName` were absent
(falling through to the release-notes check). -/
theorem annotateMarkdown_empty_fallthrough (pkg : Pkg) (m : Metadata) (rel : Bool)
    (md : String) :
    (m.hardcodedFrontmatter = some "" →
      annotateMarkdown pkg m rel md =
        annotateMarkdown pkg { m with hardcodedFrontmatter := none } rel md) ∧
    (m.apiName = some "" →
      annotateMarkdown pkg m rel md =
        annotateMarkdown pkg { m with apiName := none } rel md) := by
  constructor
  · intro h
    simp [annotateMarkdown, h, truthyStr]
  · intro h
    simp [annotateMarkdown, h, truthyStr]

theorem annotateMarkdown_empty_fallthrough_witness :
    (emptyHcMeta.hardcodedFrontmatter = some "") ∧
    (annotateMarkdown samplePkg emptyHcMeta false "# E" =
      annotateMarkdown samplePkg { emptyHcMeta with hardcodedFrontmatter := none } false "# E") ∧
    (annotateMarkdown samplePkg emptyHcMeta false "# E" =
      "---\ntitle: Measure\ndescription: API reference for qiskit.circuit.Measure\nin_page_toc_min_heading_level: 1\npython_api_type: class\npython_api_name: qiskit.circuit.Measure\n---\n\n# E\n") ∧
    (emptyApiMeta.apiName = some "") ∧
    (annotateMarkdown samplePkg emptyApiMeta true "# E" =
      annotateMarkdown samplePkg { emptyApiMeta with apiName := none } true "# E") ∧
    (annotateMarkdown samplePkg emptyApiMeta true "# E" =
      "---\ntitle: Qiskit 0.45 release notes\ndescription: Changes made in Qiskit 0.45\nin_page_toc_max_heading_level: 2\n---\n\n# E\n") :=
  ⟨rfl, (annotateMarkdown_empty_fallthrough samplePkg emptyHcMeta false "# E").1 rfl,
    by rfl, rfl,
    (annotateMarkdown_empty_fallthrough samplePkg emptyApiMeta true "# E").2 rfl,
    by rfl⟩

def noTypeMeta : Metadata :=
  { hardcodedFrontmatter := none, apiName := some "qiskit.Foo", apiType := none }

/-- C10: the API-symbol branch performs no validation of `apiType`. For any
page with a truthy `apiName`, whatever `m.apiType` holds is rendered into
the `python_api_type:` line (a present string verbatim, an absent value as
JavaScript's `"undefined"`), and the five-line header is emitted
regardless. -/
theorem annotateMarkdown_apiType_unvalidated (pkg : Pkg) (m : Metadata) (rel : Bool)
    (md nm : String)
    (hh : truthyStr m.hardcodedFrontmatter = false)
    (ha : m.apiName = some nm) (hne : nm ≠ "") :
    annotateMarkdown pkg m rel md =
      "---\ntitle: " ++ getLastPartFromFullIdentifier nm ++
        "\ndescription: API reference for " ++ nm ++
        "\nin_page_toc_min_heading_level: 1\npython_api_type: " ++ interpolate m.apiType ++
        "\npython_api_name: " ++ nm ++ "\n---\n\n" ++ md ++ "\n" ∧
    (∀ s : String, m.apiType = some s → interpolate m.apiType = s) ∧
    (m.apiType = none → interpolate m.apiType = "undefined") := by
  refine ⟨annotateMarkdown_api pkg m rel md nm hh ha hne, ?_, ?_⟩
  · intro s hs
    simp [interpolate, hs]
  · intro hn
    simp [interpolate, hn]

theorem annotateMarkdown_apiType_unvalidated_witness :
    (truthyStr noTypeMeta.hardcodedFrontmatter = false) ∧
    (noTypeMeta.apiName = some "qiskit.Foo") ∧
    ("qiskit.Foo" ≠ "") ∧
    (annotateMarkdown samplePkg noTypeMeta false "# T" =
        "---\ntitle: " ++ getLastPartFromFullIdentifier "qiskit.Foo" ++
          "\ndescription: API reference for " ++ "qiskit.Foo" ++
          "\nin_page_toc_min_heading_level: 1\npython_api_type: " ++
          interpolate noTypeMeta.apiType ++
          "\npython_api_name: " ++ "qiskit.Foo" ++ "\n---\n\n" ++ "# T" ++ "\n" ∧
      (∀ s : String, noTypeMeta.apiType = some s → interpolate noTypeMeta.apiType = s) ∧
      (noTypeMeta.apiType = none → interpolate noTypeMeta.apiType = "undefined")) ∧
    (annotateMarkdown samplePkg noTypeMeta false "# T" =
      "---\ntitle: Foo\ndescription: API reference for qiskit.Foo\nin_page_toc_min_heading_level: 1\npython_api_type: undefined\npython_api_name: qiskit.Foo\n---\n\n# T\n") :=
  ⟨rfl, rfl, by decide,
    annotateMarkdown_apiType_unvalidated samplePkg noTypeMeta false "# T" "qiskit.Foo"
      rfl rfl (by decide),
    by rfl⟩

/-- C1 counterexample: the hardcoded-case rewrite does not produce exactly
`"---\n" ++ hardcodedFrontmatter ++ "\n---\n\n" ++ originalBody`: the
template literal in the source ends with a newline after the interpolated
body, so one extra `"\n"` is appended. -/
theorem addFrontMatter_hardcoded_exact_cex :
    (addFrontMatter [hcPage] samplePkg)[0]? ≠
      some { hcPage with
              markdown := "---\n" ++ "title: Hand" ++ "\n---\n\n" ++ hcPage.markdown } := by
  decide
